import Mathlib

/-!
Verification of the Blender anatomy-pipeline scripts (health-v1).

The repository consists of four Python scripts run inside Blender:
  * scripts/blender/build_custom_anatomy.py
  * scripts/blender/generate_anatomy_procedural.py
  * scripts/blender/import_bodyparts3d.py
  * scripts/create_morph_targets.py

This file gives a shallow embedding of the data tables and the pure /
effect-trace content of those scripts, and proves or refutes the frozen
claims about them.  Host-owned operations (Blender's mesh editing,
decimation, export) are modelled abstractly: either as opaque parameters
passed to the embedded functions, or as events in a trace, so that the
claims about ordering, guarding and skipping can be stated faithfully.
Machine floats in the scripts only ever hold decimal literals and results
of `*`, `/` on them; the claims under study are about exact identities or
set membership, so coordinates and colors are embedded as rationals.
-/

/-- Vertex coordinates / color triples: the scripts manipulate 3-tuples of
floats; embedded as rationals. -/
abbrev Vec3 : Type := ℚ × ℚ × ℚ

/- ===================================================================
   hex_to_rgb — defined identically in build_custom_anatomy.py (l.315),
   generate_anatomy_procedural.py (l.28) and import_bodyparts3d.py (l.99):
     hex_color = hex_color.lstrip('#')
     return tuple(int(hex_color[i:i+2], 16) / 255.0 for i in (0, 2, 4))
   Embedding: strings are lists of characters; Python `int(s, 16)` is
   embedded on its hexadecimal-digit domain (the domain the claims
   quantify over), returning `none` where Python would raise ValueError.
   =================================================================== -/

/-- Value of one hexadecimal digit, `none` for a non-hex character
(comparisons on the code point: 48-57 are '0'-'9', 97-102 are 'a'-'f',
65-70 are 'A'-'F'). -/
def hexDigitVal (c : Char) : Option Nat :=
  if 48 ≤ c.toNat ∧ c.toNat ≤ 57 then some (c.toNat - 48)
  else if 97 ≤ c.toNat ∧ c.toNat ≤ 102 then some (c.toNat - 97 + 10)
  else if 65 ≤ c.toNat ∧ c.toNat ≤ 70 then some (c.toNat - 65 + 10)
  else none

/-- Python `int(s, 16)` on a string of hexadecimal digits: `none` on the
empty string or on any non-hex character (where Python raises). -/
def intBase16 (s : List Char) : List Nat → Option Nat :=
  fun _ => s.foldl
    (fun acc c => acc.bind (fun a => (hexDigitVal c).map (fun d => a * 16 + d)))
    (if s.isEmpty then none else some 0)

/-- Python `int(s, 16)`, see `intBase16`. -/
def pyInt16 (s : List Char) : Option Nat := intBase16 s []

/-- Python slice `s[i:j]` for `0 ≤ i ≤ j`. -/
def pySlice (s : List Char) (i j : Nat) : List Char :=
  (s.drop i).take (j - i)

/-- Python `s.lstrip('#')`. -/
def lstripHash (s : List Char) : List Char :=
  s.dropWhile (fun c => c = '#')

/-- Shared body of the three hex_to_rgb functions. -/
def hexToRgbCore (s : List Char) : Option Vec3 :=
  let t := lstripHash s
  (pyInt16 (pySlice t 0 2)).bind fun r =>
    (pyInt16 (pySlice t 2 4)).bind fun g =>
      (pyInt16 (pySlice t 4 6)).map fun b =>
        ((r : ℚ) / 255, (g : ℚ) / 255, (b : ℚ) / 255)

/-- hex_to_rgb of build_custom_anatomy.py (lines 315-318). -/
def hex_to_rgb_build (s : List Char) : Option Vec3 :=
  let t := lstripHash s
  (pyInt16 (pySlice t 0 2)).bind fun r =>
    (pyInt16 (pySlice t 2 4)).bind fun g =>
      (pyInt16 (pySlice t 4 6)).map fun b =>
        ((r : ℚ) / 255, (g : ℚ) / 255, (b : ℚ) / 255)

/-- hex_to_rgb of generate_anatomy_procedural.py (lines 28-31). -/
def hex_to_rgb_generate (s : List Char) : Option Vec3 :=
  let t := lstripHash s
  (pyInt16 (pySlice t 0 2)).bind fun r =>
    (pyInt16 (pySlice t 2 4)).bind fun g =>
      (pyInt16 (pySlice t 4 6)).map fun b =>
        ((r : ℚ) / 255, (g : ℚ) / 255, (b : ℚ) / 255)

/-- hex_to_rgb of import_bodyparts3d.py (lines 99-102). -/
def hex_to_rgb_import (s : List Char) : Option Vec3 :=
  let t := lstripHash s
  (pyInt16 (pySlice t 0 2)).bind fun r =>
    (pyInt16 (pySlice t 2 4)).bind fun g =>
      (pyInt16 (pySlice t 4 6)).map fun b =>
        ((r : ℚ) / 255, (g : ℚ) / 255, (b : ℚ) / 255)

/-- Predicate: `s` consists of six hexadecimal digits optionally prefixed
by a single '#'. -/
def isHexColorString (s : List Char) : Prop :=
  ∃ t : List Char, (s = t ∨ s = '#' :: t) ∧ t.length = 6 ∧
    ∀ c ∈ t, (hexDigitVal c).isSome

theorem hexDigitVal_le (c : Char) (v : Nat) (h : hexDigitVal c = some v) :
    v ≤ 15 := by
  unfold hexDigitVal at h
  split at h
  · injection h with h; omega
  · split at h
    · injection h with h; omega
    · split at h
      · injection h with h; omega
      · exact absurd h (by simp)

theorem pyInt16_pair (c d : Char) (vc vd : Nat)
    (hc : hexDigitVal c = some vc) (hd : hexDigitVal d = some vd) :
    pyInt16 [c, d] = some (vc * 16 + vd) := by
  simp [pyInt16, intBase16, hc, hd]

theorem lstripHash_cons_of_hex (a : Char) (l : List Char) (va : Nat)
    (ha : hexDigitVal a = some va) :
    lstripHash (a :: l) = a :: l := by
  have hne : a ≠ '#' := by
    intro he
    rw [he] at ha
    have : (hexDigitVal '#').isSome := ha ▸ rfl
    exact absurd this (by decide)
  simp [lstripHash, List.dropWhile_cons, hne]

theorem lstripHash_hash_cons (l : List Char) :
    lstripHash ('#' :: l) = lstripHash l := by
  simp [lstripHash, List.dropWhile_cons]

theorem byte_div_255_mem_unit (n : Nat) (h : n ≤ 255) :
    0 ≤ (n : ℚ) / 255 ∧ (n : ℚ) / 255 ≤ 1 := by
  constructor
  · positivity
  · rw [div_le_one (by norm_num)]
    exact_mod_cast h

/-- C10: the three hex_to_rgb functions (build_custom_anatomy.py,
generate_anatomy_procedural.py, import_bodyparts3d.py) agree on every
string of six hexadecimal digits optionally prefixed by '#'; the result
is the triple of the three parsed byte values each divided by 255, and
every component lies in the closed interval [0, 1]. -/
theorem hexToRgb_scripts_agree_and_unit_range (s : List Char)
    (hs : isHexColorString s) :
    hex_to_rgb_build s = hex_to_rgb_generate s ∧
    hex_to_rgb_build s = hex_to_rgb_import s ∧
    ∃ n₁ n₂ n₃ : Nat,
      pyInt16 (pySlice (lstripHash s) 0 2) = some n₁ ∧
      pyInt16 (pySlice (lstripHash s) 2 4) = some n₂ ∧
      pyInt16 (pySlice (lstripHash s) 4 6) = some n₃ ∧
      hex_to_rgb_build s = some ((n₁ : ℚ) / 255, (n₂ : ℚ) / 255, (n₃ : ℚ) / 255) ∧
      0 ≤ (n₁ : ℚ) / 255 ∧ (n₁ : ℚ) / 255 ≤ 1 ∧
      0 ≤ (n₂ : ℚ) / 255 ∧ (n₂ : ℚ) / 255 ≤ 1 ∧
      0 ≤ (n₃ : ℚ) / 255 ∧ (n₃ : ℚ) / 255 ≤ 1 := by
  refine ⟨rfl, rfl, ?_⟩
  obtain ⟨t, hst, hlen, hhex⟩ := hs
  rcases t with _ | ⟨a, _ | ⟨b, _ | ⟨c, _ | ⟨d, _ | ⟨e, _ | ⟨f, _ | ⟨g, t⟩⟩⟩⟩⟩⟩⟩ <;>
    simp at hlen
  obtain ⟨va, hva⟩ := Option.isSome_iff_exists.mp (hhex a (by simp))
  obtain ⟨vb, hvb⟩ := Option.isSome_iff_exists.mp (hhex b (by simp))
  obtain ⟨vc, hvc⟩ := Option.isSome_iff_exists.mp (hhex c (by simp))
  obtain ⟨vd, hvd⟩ := Option.isSome_iff_exists.mp (hhex d (by simp))
  obtain ⟨ve, hve⟩ := Option.isSome_iff_exists.mp (hhex e (by simp))
  obtain ⟨vf, hvf⟩ := Option.isSome_iff_exists.mp (hhex f (by simp))
  have hstrip : lstripHash s = [a, b, c, d, e, f] := by
    rcases hst with h | h <;> subst h
    · exact lstripHash_cons_of_hex a _ va hva
    · rw [lstripHash_hash_cons]
      exact lstripHash_cons_of_hex a _ va hva
  have h1 : pyInt16 (pySlice (lstripHash s) 0 2) = some (va * 16 + vb) := by
    rw [hstrip]; exact pyInt16_pair a b va vb hva hvb
  have h2 : pyInt16 (pySlice (lstripHash s) 2 4) = some (vc * 16 + vd) := by
    rw [hstrip]; exact pyInt16_pair c d vc vd hvc hvd
  have h3 : pyInt16 (pySlice (lstripHash s) 4 6) = some (ve * 16 + vf) := by
    rw [hstrip]; exact pyInt16_pair e f ve vf hve hvf
  have ba := hexDigitVal_le a va hva
  have bb := hexDigitVal_le b vb hvb
  have bc := hexDigitVal_le c vc hvc
  have bd := hexDigitVal_le d vd hvd
  have be := hexDigitVal_le e ve hve
  have bf := hexDigitVal_le f vf hvf
  obtain ⟨u1l, u1r⟩ := byte_div_255_mem_unit (va * 16 + vb) (by omega)
  obtain ⟨u2l, u2r⟩ := byte_div_255_mem_unit (vc * 16 + vd) (by omega)
  obtain ⟨u3l, u3r⟩ := byte_div_255_mem_unit (ve * 16 + vf) (by omega)
  refine ⟨va * 16 + vb, vc * 16 + vd, ve * 16 + vf, h1, h2, h3, ?_,
    u1l, u1r, u2l, u2r, u3l, u3r⟩
  show hex_to_rgb_build s = _
  unfold hex_to_rgb_build
  rw [hstrip]
  simp [pySlice, pyInt16_pair a b va vb hva hvb, pyInt16_pair c d vc vd hvc hvd,
    pyInt16_pair e f ve vf hve hvf]

/-- Witness for C10 at the concrete color string "#E74C3C" of the tables. -/
theorem hexToRgb_scripts_agree_and_unit_range_witness :
    isHexColorString ("#E74C3C".toList) ∧
    (hex_to_rgb_build ("#E74C3C".toList) = hex_to_rgb_generate ("#E74C3C".toList) ∧
     hex_to_rgb_build ("#E74C3C".toList) = hex_to_rgb_import ("#E74C3C".toList) ∧
     ∃ n₁ n₂ n₃ : Nat,
       pyInt16 (pySlice (lstripHash ("#E74C3C".toList)) 0 2) = some n₁ ∧
       pyInt16 (pySlice (lstripHash ("#E74C3C".toList)) 2 4) = some n₂ ∧
       pyInt16 (pySlice (lstripHash ("#E74C3C".toList)) 4 6) = some n₃ ∧
       hex_to_rgb_build ("#E74C3C".toList) =
         some ((n₁ : ℚ) / 255, (n₂ : ℚ) / 255, (n₃ : ℚ) / 255) ∧
       0 ≤ (n₁ : ℚ) / 255 ∧ (n₁ : ℚ) / 255 ≤ 1 ∧
       0 ≤ (n₂ : ℚ) / 255 ∧ (n₂ : ℚ) / 255 ≤ 1 ∧
       0 ≤ (n₃ : ℚ) / 255 ∧ (n₃ : ℚ) / 255 ≤ 1) := by
  have hx : isHexColorString ("#E74C3C".toList) :=
    ⟨['E', '7', '4', 'C', '3', 'C'], Or.inr rfl, rfl, by decide⟩
  exact ⟨hx, hexToRgb_scripts_agree_and_unit_range _ hx⟩

/- ===================================================================
   create_morph_targets.py — BMI presets (lines 30-67) and the per-vertex
   region-specific scaling of create_bmi_variant (lines 190-208).
   Decimal float literals of the script are embedded as exact rationals;
   claim C8 concerns only the all-ones preset, where every multiplier is
   exactly 1.0 in floating point as well.
   =================================================================== -/

/-- One entry of BMI_PRESETS (create_morph_targets.py, lines 30-67). -/
structure BmiPreset where
  bmi : ℚ
  abdomen_scale : ℚ
  limbs_scale : ℚ
  face_scale : ℚ
deriving DecidableEq

/-- BMI_PRESETS table (create_morph_targets.py, lines 30-67). -/
def BMI_PRESETS : List (String × BmiPreset) :=
  [("Underweight", { bmi := 17.0, abdomen_scale := 0.85, limbs_scale := 0.90, face_scale := 0.95 }),
   ("Normal", { bmi := 22.0, abdomen_scale := 1.0, limbs_scale := 1.0, face_scale := 1.0 }),
   ("Overweight", { bmi := 27.5, abdomen_scale := 1.20, limbs_scale := 1.08, face_scale := 1.05 }),
   ("Obese1", { bmi := 32.5, abdomen_scale := 1.45, limbs_scale := 1.15, face_scale := 1.12 }),
   ("Obese2", { bmi := 37.5, abdomen_scale := 1.70, limbs_scale := 1.22, face_scale := 1.18 }),
   ("Obese3", { bmi := 45.0, abdomen_scale := 2.00, limbs_scale := 1.30, face_scale := 1.25 })]

/-- Per-vertex region scaling of create_bmi_variant (create_morph_targets.py,
lines 190-208).  The Python loop reads z, y, x from the vertex before any
mutation; the branch structure is: `if 0.3 < z < 0.7 and y > 0` (abdomen),
`elif z < 0.5` with a nested `if abs(x) > 0.15` (limbs, otherwise no-op),
`elif z > 1.0` (face), else no-op. -/
def bmiScaleVertex (abdomen_scale limbs_scale face_scale : ℚ) (v : Vec3) : Vec3 :=
  let x := v.1
  let y := v.2.1
  let z := v.2.2
  if 0.3 < z ∧ z < 0.7 ∧ 0 < y then
    (x * (1 + (abdomen_scale - 1) * 0.5), y * abdomen_scale, z)
  else if z < 0.5 then
    if 0.15 < |x| then (x * limbs_scale, y * (1 + (limbs_scale - 1) * 0.5), z)
    else (x, y, z)
  else if 1 < z then (x * face_scale, y * face_scale, z * face_scale)
  else (x, y, z)

/-- Mesh-level effect of create_bmi_variant: the duplicated mesh with the
per-vertex scaling applied to every vertex. -/
def create_bmi_variant_mesh (p : BmiPreset) (mesh : List Vec3) : List Vec3 :=
  mesh.map (bmiScaleVertex p.abdomen_scale p.limbs_scale p.face_scale)

/-- C8: with abdomen_scale = limbs_scale = face_scale = 1.0 (the values of
the 'Normal' preset) the per-vertex scaling returns every coordinate
unchanged, so the variant mesh built from the 'Normal' preset equals the
base mesh. -/
theorem bmiScale_normal_is_identity :
    BMI_PRESETS.lookup "Normal" =
      some { bmi := 22.0, abdomen_scale := 1.0, limbs_scale := 1.0, face_scale := 1.0 } ∧
    (∀ v : Vec3, bmiScaleVertex 1.0 1.0 1.0 v = v) ∧
    ∀ mesh : List Vec3,
      create_bmi_variant_mesh
        { bmi := 22.0, abdomen_scale := 1.0, limbs_scale := 1.0, face_scale := 1.0 } mesh
        = mesh := by
  have hid : ∀ v : Vec3, bmiScaleVertex 1.0 1.0 1.0 v = v := by
    intro v
    obtain ⟨x, y, z⟩ := v
    unfold bmiScaleVertex
    dsimp only
    split_ifs <;> norm_num
  refine ⟨by norm_num [BMI_PRESETS, List.lookup]; rfl, hid, ?_⟩
  intro mesh
  induction mesh with
  | nil => rfl
  | cons v t ih =>
      simp only [create_bmi_variant_mesh, List.map_cons] at ih ⊢
      rw [ih]
      exact congrArg (· :: t) (hid v)

/- ===================================================================
   create_morph_targets.py — create_shape_keys (lines 218-246).
   A shape key is (name, list of vertex coordinates).  shape_key_add with
   the mesh in its base state first yields the 'Basis' key holding the
   base coordinates; then for each variant, a vertex-count mismatch
   prints an error and `continue`s, otherwise a key is added and the
   per-index loop copies the variant's coordinates into it.
   =================================================================== -/

/-- Error line printed by create_shape_keys on a vertex-count mismatch
(create_morph_targets.py, line 234; the leading marker glyph is elided). -/
def mismatchError (preset_name : String) : String :=
  "ERROR: Vertex count mismatch for " ++ preset_name

/-- Per-index copy loop `shape_key.data[i].co = vert.co` over the variant's
vertices: positions below the variant's length receive the variant's
coordinate, later positions keep the key's initial coordinates (the base
mesh).  The script only runs this under the equal-length guard, where it
coincides with the variant's coordinate list. -/
def copyCoords (dst src : List Vec3) : List Vec3 :=
  src.take dst.length ++ dst.drop src.length

/-- One iteration of the variant loop in create_shape_keys
(create_morph_targets.py, lines 231-244). -/
def shapeKeyStep (base : List Vec3)
    (acc : List (String × List Vec3) × List String)
    (v : String × List Vec3) : List (String × List Vec3) × List String :=
  if base.length ≠ v.2.length then
    (acc.1, acc.2 ++ [mismatchError v.1])
  else
    (acc.1 ++ [(v.1, copyCoords base v.2)], acc.2)

/-- create_shape_keys (create_morph_targets.py, lines 218-246): returns the
list of shape keys on the base object and the list of printed error
lines. -/
def create_shape_keys (base : List Vec3) (variants : List (String × List Vec3)) :
    List (String × List Vec3) × List String :=
  variants.foldl (shapeKeyStep base) ([("Basis", base)], [])

theorem copyCoords_eq_of_length (dst src : List Vec3) (h : dst.length = src.length) :
    copyCoords dst src = src := by
  unfold copyCoords
  rw [h, List.take_length, ← h, List.drop_length, List.append_nil]

theorem shapeKeys_foldl (base : List Vec3) (variants : List (String × List Vec3))
    (ks : List (String × List Vec3)) (errs : List String) :
    variants.foldl (shapeKeyStep base) (ks, errs) =
      (ks ++ (variants.filter (fun v => base.length == v.2.length)).map
          (fun v => (v.1, copyCoords base v.2)),
       errs ++ (variants.filter (fun v => !(base.length == v.2.length))).map
          (fun v => mismatchError v.1)) := by
  induction variants generalizing ks errs with
  | nil => simp
  | cons v t ih =>
      by_cases h : base.length = v.2.length
      · simp [List.foldl_cons, shapeKeyStep, h, ih, List.filter_cons]
      · simp [List.foldl_cons, shapeKeyStep, h, ih, List.filter_cons]

/-- C2: create_shape_keys adds the 'Basis' key and then exactly one shape
key per variant whose vertex count matches the base mesh, holding exactly
the variant's vertex coordinates; every mismatching variant contributes an
error line instead of a key, and processing never aborts: the keys are the
matching variants in order and the error log is the mismatching variants
in order. -/
theorem create_shape_keys_skip_and_copy (base : List Vec3)
    (variants : List (String × List Vec3)) :
    (create_shape_keys base variants).1 =
      ("Basis", base) :: variants.filter (fun v => base.length == v.2.length) ∧
    (create_shape_keys base variants).2 =
      (variants.filter (fun v => !(base.length == v.2.length))).map
        (fun v => mismatchError v.1) := by
  unfold create_shape_keys
  rw [shapeKeys_foldl]
  refine ⟨?_, by simp⟩
  simp only [List.cons_append, List.nil_append, List.cons.injEq, true_and]
  have hmap : ∀ v ∈ variants.filter (fun v => base.length == v.2.length),
      (fun v : String × List Vec3 => (v.1, copyCoords base v.2)) v = id v := by
    intro v hv
    have hlen : base.length = v.2.length := by
      have := (List.mem_filter.mp hv).2
      simpa using this
    simp [copyCoords_eq_of_length base v.2 hlen]
  rw [List.map_congr_left hmap, List.map_id]

/- ===================================================================
   Mesh optimization: optimize_mesh (build_custom_anatomy.py, lines
   349-370), decimate_mesh and optimize_models (import_bodyparts3d.py,
   lines 167-179 and 250-279).  The effect of Blender's decimate modifier
   on a mesh is host-owned, so it is passed in abstractly as a function
   `decimate`; the embedded functions return the (possibly) transformed
   object together with the ratio of the decimate modifier that was
   added and applied, `none` when no modifier was added.
   =================================================================== -/

/-- A scene object as the optimization code sees it: name, type string and
current polygon count. -/
structure BObject where
  name : String
  objType : String
  polygons : Nat
deriving DecidableEq

/-- optimize_mesh (build_custom_anatomy.py, lines 349-370): early return
for non-mesh objects and for meshes at or below the target count;
otherwise a decimate modifier with ratio target/current is added and
applied. -/
def optimize_mesh (decimate : BObject → ℚ → BObject)
    (obj : BObject) (target_polygons : Nat) : BObject × Option ℚ :=
  if obj.objType ≠ "MESH" then (obj, none)
  else if obj.polygons ≤ target_polygons then (obj, none)
  else
    ((decimate obj ((target_polygons : ℚ) / (obj.polygons : ℚ))),
     some ((target_polygons : ℚ) / (obj.polygons : ℚ)))

/-- decimate_mesh (import_bodyparts3d.py, lines 167-179): guarded on the
object being a mesh. -/
def decimate_mesh (decimate : BObject → ℚ → BObject)
    (obj : BObject) (ratio : ℚ) : BObject :=
  if obj.objType ≠ "MESH" then obj else decimate obj ratio

/-- TARGET_POLYGON_COUNT (import_bodyparts3d.py, lines 71-74). -/
def TARGET_POLYGON_COUNT : List (String × Nat) :=
  [("high_detail", 500000), ("low_detail", 50000)]

/-- Total polygon count over the scene's mesh objects
(import_bodyparts3d.py, line 259). -/
def scene_mesh_polygons (scene : List BObject) : Nat :=
  ((scene.filter (fun o => o.objType == "MESH")).map (fun o => o.polygons)).sum

/-- optimize_models (import_bodyparts3d.py, lines 250-279): returns the
scene unchanged when the total mesh polygon count is at most the target
total, otherwise decimates every mesh with the total-based ratio. -/
def optimize_models (decimate : BObject → ℚ → BObject)
    (scene : List BObject) (target_total : Nat) : List BObject :=
  let total := scene_mesh_polygons scene
  if total ≤ target_total then scene
  else
    scene.map (fun o =>
      if o.objType == "MESH" then
        decimate_mesh decimate o ((target_total : ℚ) / (total : ℚ))
      else o)

/-- C9: optimization is a no-op at or below budget — optimize_mesh leaves
non-mesh objects and meshes at or below the target untouched with no
modifier added, applies decimation with ratio target/current exactly when
the count exceeds the target, and optimize_models returns the scene
unchanged when the total mesh polygon count is at most the target
total. -/
theorem optimize_noop_at_or_below_budget
    (decimate : BObject → ℚ → BObject) (obj : BObject) (target : Nat)
    (scene : List BObject) (target_total : Nat) :
    (obj.objType ≠ "MESH" → optimize_mesh decimate obj target = (obj, none)) ∧
    (obj.objType = "MESH" → obj.polygons ≤ target →
      optimize_mesh decimate obj target = (obj, none)) ∧
    (obj.objType = "MESH" → target < obj.polygons →
      optimize_mesh decimate obj target =
        (decimate obj ((target : ℚ) / (obj.polygons : ℚ)),
         some ((target : ℚ) / (obj.polygons : ℚ)))) ∧
    (scene_mesh_polygons scene ≤ target_total →
      optimize_models decimate scene target_total = scene) := by
  refine ⟨?_, ?_, ?_, ?_⟩
  · intro h
    simp [optimize_mesh, h]
  · intro h hle
    simp [optimize_mesh, h, hle]
  · intro h hlt
    rw [optimize_mesh, if_neg (by simp [h]), if_neg (by omega)]
  · intro h
    simp only [optimize_models]
    rw [if_pos h]

/-- Witness for C9: the four no-op / decimation cases at concrete objects
and scenes, with the host decimate function instantiated to the identity
in its first argument. -/
theorem optimize_noop_at_or_below_budget_witness :
    optimize_mesh (fun o _ => o) ⟨"cam", "CAMERA", 10⟩ 5 =
      (⟨"cam", "CAMERA", 10⟩, none) ∧
    optimize_mesh (fun o _ => o) ⟨"m", "MESH", 3⟩ 5 = (⟨"m", "MESH", 3⟩, none) ∧
    optimize_mesh (fun o _ => o) ⟨"m", "MESH", 10⟩ 5 =
      (⟨"m", "MESH", 10⟩, some ((5 : ℚ) / 10)) ∧
    optimize_models (fun o _ => o) [⟨"m", "MESH", 3⟩] 5 = [⟨"m", "MESH", 3⟩] := by
  obtain ⟨h1, h2, h3, h4⟩ :=
    optimize_noop_at_or_below_budget (fun o _ => o) ⟨"cam", "CAMERA", 10⟩ 5
      [⟨"m", "MESH", 3⟩] 5
  obtain ⟨-, h2', -, -⟩ :=
    optimize_noop_at_or_below_budget (fun o _ => o) ⟨"m", "MESH", 3⟩ 5
      [⟨"m", "MESH", 3⟩] 5
  obtain ⟨-, -, h3', -⟩ :=
    optimize_noop_at_or_below_budget (fun o _ => o) ⟨"m", "MESH", 10⟩ 5
      [⟨"m", "MESH", 3⟩] 5
  exact ⟨h1 (by decide), h2' rfl (by decide), h3' rfl (by decide),
    h4 (by decide)⟩

/- ===================================================================
   Material creation: create_organ_material (build_custom_anatomy.py,
   lines 320-343), create_material (generate_anatomy_procedural.py,
   lines 33-57) and create_material (import_bodyparts3d.py, lines
   104-123).  The set of input sockets existing on the host's Principled
   BSDF node varies across Blender versions and is passed in as a list of
   socket names.  Python `'X' in bsdf.inputs` is membership in that list;
   `bsdf.inputs['X']` on an absent name raises KeyError, embedded as
   `Except.error`.  A `try/except: pass` block around an access makes it
   non-raising.
   =================================================================== -/

/-- A Principled BSDF material as these functions build it: each field is
the default value assigned to the corresponding input socket, `none` when
the function did not set it. -/
structure Material where
  name : String
  base_color : Option (ℚ × ℚ × ℚ × ℚ)
  roughness : Option ℚ
  subsurface_weight : Option ℚ
  subsurface : Option ℚ
  subsurface_color : Option (ℚ × ℚ × ℚ × ℚ)
deriving DecidableEq

/-- create_organ_material (build_custom_anatomy.py, lines 320-343): Base
Color and Roughness are set unguarded; the Subsurface Weight assignment
sits inside `try: if 'Subsurface Weight' in bsdf.inputs: ... except: pass`,
so it is applied exactly when that socket exists and never raises. -/
def create_organ_material_build (inputs : List String) (name : String)
    (color_hex : List Char) (roughness : ℚ) : Except String Material :=
  match hex_to_rgb_build color_hex with
  | none => .error "ValueError in hex_to_rgb"
  | some rgb =>
    if "Base Color" ∉ inputs then .error "KeyError: Base Color"
    else if "Roughness" ∉ inputs then .error "KeyError: Roughness"
    else .ok
      { name := "Mat_" ++ name,
        base_color := some (rgb.1, rgb.2.1, rgb.2.2, 1),
        roughness := some roughness,
        subsurface_weight := if "Subsurface Weight" ∈ inputs then some 0.1 else none,
        subsurface := none,
        subsurface_color := none }

/-- create_material (generate_anatomy_procedural.py, lines 33-57): like the
build variant, but the guarded block falls back from 'Subsurface Weight'
to the legacy 'Subsurface' socket, still raising nothing. -/
def create_material_generate (inputs : List String) (name : String)
    (color_hex : List Char) (roughness subsurface : ℚ) : Except String Material :=
  match hex_to_rgb_generate color_hex with
  | none => .error "ValueError in hex_to_rgb"
  | some rgb =>
    if "Base Color" ∉ inputs then .error "KeyError: Base Color"
    else if "Roughness" ∉ inputs then .error "KeyError: Roughness"
    else .ok
      { name := "Mat_" ++ name,
        base_color := some (rgb.1, rgb.2.1, rgb.2.2, 1),
        roughness := some roughness,
        subsurface_weight :=
          if "Subsurface Weight" ∈ inputs then some subsurface else none,
        subsurface :=
          if "Subsurface Weight" ∈ inputs then none
          else if "Subsurface" ∈ inputs then some subsurface else none,
        subsurface_color := none }

/-- create_material (import_bodyparts3d.py, lines 104-123): the
'Subsurface' and 'Subsurface Color' assignments (lines 116-117) are NOT
guarded by any membership test or try block, so a host without those
sockets makes the function raise KeyError. -/
def create_material_import (inputs : List String) (name : String)
    (color_hex : List Char) (roughness : ℚ) : Except String Material :=
  match hex_to_rgb_import color_hex with
  | none => .error "ValueError in hex_to_rgb"
  | some rgb =>
    if "Base Color" ∉ inputs then .error "KeyError: Base Color"
    else if "Roughness" ∉ inputs then .error "KeyError: Roughness"
    else if "Subsurface" ∉ inputs then .error "KeyError: Subsurface"
    else if "Subsurface Color" ∉ inputs then .error "KeyError: Subsurface Color"
    else .ok
      { name := "Mat_" ++ name,
        base_color := some (rgb.1, rgb.2.1, rgb.2.2, 1),
        roughness := some roughness,
        subsurface_weight := none,
        subsurface := some 0.05,
        subsurface_color := some (rgb.1, rgb.2.1, rgb.2.2, 1) }

/-- C6 counterexample: on a host whose Principled BSDF has no 'Subsurface'
socket (Blender 4.x renamed it to 'Subsurface Weight'), the create_material
of import_bodyparts3d.py propagates a KeyError instead of skipping the
missing optional input — the claim is false for that material-creation
function. -/
theorem create_material_import_raises_on_missing_subsurface :
    create_material_import ["Base Color", "Roughness", "Subsurface Weight"]
      "heart" ("#E74C3C".toList) 0.4 = .error "KeyError: Subsurface" := rfl

/-- C6 amended: in build_custom_anatomy.py and
generate_anatomy_procedural.py the optional subsurface inputs are guarded
and their absence never propagates an exception — the function returns a
material with Base Color and Roughness set; in import_bodyparts3d.py the
'Subsurface' access is unguarded and its absence raises KeyError. -/
theorem material_creation_subsurface_guarding (inputs : List String)
    (name : String) (color_hex : List Char) (r sub : ℚ) (rgb : Vec3)
    (hparse : hex_to_rgb_build color_hex = some rgb)
    (hbc : "Base Color" ∈ inputs) (hr : "Roughness" ∈ inputs) :
    (∃ m, create_organ_material_build inputs name color_hex r = .ok m ∧
       m.base_color = some (rgb.1, rgb.2.1, rgb.2.2, 1) ∧ m.roughness = some r) ∧
    (∃ m, create_material_generate inputs name color_hex r sub = .ok m ∧
       m.base_color = some (rgb.1, rgb.2.1, rgb.2.2, 1) ∧ m.roughness = some r) ∧
    ("Subsurface" ∉ inputs →
       create_material_import inputs name color_hex r = .error "KeyError: Subsurface") := by
  have hg : hex_to_rgb_generate color_hex = some rgb := hparse
  have hi : hex_to_rgb_import color_hex = some rgb := hparse
  refine ⟨?_, ?_, ?_⟩
  · simp only [create_organ_material_build, hparse]
    rw [if_neg (not_not_intro hbc), if_neg (not_not_intro hr)]
    exact ⟨_, rfl, rfl, rfl⟩
  · simp only [create_material_generate, hg]
    rw [if_neg (not_not_intro hbc), if_neg (not_not_intro hr)]
    exact ⟨_, rfl, rfl, rfl⟩
  · intro hns
    simp only [create_material_import, hi]
    rw [if_neg (not_not_intro hbc), if_neg (not_not_intro hr), if_pos hns]

/-- Witness for the amended C6 at the Blender-4.x socket list and the
color "#FFB6C1" of the tables. -/
theorem material_creation_subsurface_guarding_witness :
    hex_to_rgb_build ("#FFB6C1".toList) =
      some ((255 : ℚ) / 255, (182 : ℚ) / 255, (193 : ℚ) / 255) ∧
    "Base Color" ∈ ["Base Color", "Roughness", "Subsurface Weight"] ∧
    "Roughness" ∈ ["Base Color", "Roughness", "Subsurface Weight"] ∧
    ((∃ m, create_organ_material_build
         ["Base Color", "Roughness", "Subsurface Weight"] "lung"
         ("#FFB6C1".toList) 0.4 = .ok m ∧
       m.base_color =
         some ((255 : ℚ) / 255, (182 : ℚ) / 255, (193 : ℚ) / 255, 1) ∧
       m.roughness = some 0.4) ∧
     (∃ m, create_material_generate
         ["Base Color", "Roughness", "Subsurface Weight"] "lung"
         ("#FFB6C1".toList) 0.4 0.1 = .ok m ∧
       m.base_color =
         some ((255 : ℚ) / 255, (182 : ℚ) / 255, (193 : ℚ) / 255, 1) ∧
       m.roughness = some 0.4) ∧
     ("Subsurface" ∉ ["Base Color", "Roughness", "Subsurface Weight"] →
       create_material_import ["Base Color", "Roughness", "Subsurface Weight"]
         "lung" ("#FFB6C1".toList) 0.4 = .error "KeyError: Subsurface")) :=
  ⟨rfl, by decide, by decide,
   material_creation_subsurface_guarding
     ["Base Color", "Roughness", "Subsurface Weight"] "lung"
     ("#FFB6C1".toList) 0.4 0.1
     ((255 : ℚ) / 255, (182 : ℚ) / 255, (193 : ℚ) / 255)
     rfl (by decide) (by decide)⟩

/- ===================================================================
   Static structure tables.
   =================================================================== -/

/-- One entry of ANATOMY_STRUCTURES (build_custom_anatomy.py, lines
55-206): name, geometry archetype tag ('type'), position, size, hex
color, organ-system classification, subdivision level and optional
feature list. -/
structure AnatomyStructure where
  name : String
  stype : String
  position : Vec3
  size : Vec3
  color : String
  system : String
  subdivisions : Nat
  features : List String
deriving DecidableEq

/-- ANATOMY_STRUCTURES (build_custom_anatomy.py, lines 55-206), in source
order. -/
def ANATOMY_STRUCTURES : List AnatomyStructure :=
  [{ name := "brain", stype := "complex", position := (0, 1.52, 0.02),
     size := (0.12, 0.14, 0.11), color := "#E8B4D9", system := "NERVOUS",
     subdivisions := 4, features := ["cerebrum", "cerebellum", "brainstem"] },
   { name := "spinal_cord", stype := "tube", position := (0, 0.82, -0.05),
     size := (0.012, 0.75, 0.012), color := "#9B59B6", system := "NERVOUS",
     subdivisions := 2, features := [] },
   { name := "heart", stype := "complex", position := (0.02, 0.98, 0.05),
     size := (0.09, 0.11, 0.08), color := "#E74C3C", system := "CARDIOVASCULAR",
     subdivisions := 4,
     features := ["left_ventricle", "right_ventricle", "left_atrium", "right_atrium"] },
   { name := "aorta", stype := "curved_tube", position := (0.02, 1.05, 0.02),
     size := (0.018, 0.45, 0.018), color := "#C0392B", system := "CARDIOVASCULAR",
     subdivisions := 3, features := [] },
   { name := "lung_right", stype := "complex", position := (0.11, 1.0, 0),
     size := (0.11, 0.22, 0.09), color := "#FFB6C1", system := "RESPIRATORY",
     subdivisions := 3, features := ["upper_lobe", "middle_lobe", "lower_lobe"] },
   { name := "lung_left", stype := "complex", position := (-0.09, 1.0, 0),
     size := (0.09, 0.20, 0.08), color := "#FFB6C1", system := "RESPIRATORY",
     subdivisions := 3, features := ["upper_lobe", "lower_lobe"] },
   { name := "trachea", stype := "tube", position := (0, 1.25, 0.05),
     size := (0.015, 0.12, 0.015), color := "#E8A4C9", system := "RESPIRATORY",
     subdivisions := 2, features := [] },
   { name := "diaphragm", stype := "dome", position := (0, 0.70, 0),
     size := (0.20, 0.03, 0.15), color := "#C48793", system := "RESPIRATORY",
     subdivisions := 2, features := [] },
   { name := "liver", stype := "complex", position := (0.09, 0.85, 0.05),
     size := (0.16, 0.12, 0.10), color := "#8B4513", system := "DIGESTIVE",
     subdivisions := 3, features := ["right_lobe", "left_lobe"] },
   { name := "stomach", stype := "pouch", position := (-0.05, 0.78, 0.08),
     size := (0.09, 0.13, 0.09), color := "#FFDAB9", system := "DIGESTIVE",
     subdivisions := 3, features := [] },
   { name := "small_intestine", stype := "coiled_tube", position := (0, 0.58, 0.09),
     size := (0.16, 0.18, 0.13), color := "#FFE4B5", system := "DIGESTIVE",
     subdivisions := 4, features := [] },
   { name := "large_intestine", stype := "tube_frame", position := (0, 0.55, 0.11),
     size := (0.18, 0.22, 0.14), color := "#E8C4A9", system := "DIGESTIVE",
     subdivisions := 3, features := [] },
   { name := "pancreas", stype := "elongated", position := (0, 0.76, 0.02),
     size := (0.13, 0.03, 0.03), color := "#DEB887", system := "DIGESTIVE",
     subdivisions := 2, features := [] },
   { name := "spleen", stype := "oval", position := (-0.12, 0.85, 0.02),
     size := (0.05, 0.09, 0.04), color := "#8B008B", system := "DIGESTIVE",
     subdivisions := 2, features := [] },
   { name := "kidney_right", stype := "bean", position := (0.09, 0.70, -0.05),
     size := (0.05, 0.09, 0.04), color := "#8B0000", system := "URINARY",
     subdivisions := 3, features := [] },
   { name := "kidney_left", stype := "bean", position := (-0.09, 0.70, -0.05),
     size := (0.05, 0.09, 0.04), color := "#8B0000", system := "URINARY",
     subdivisions := 3, features := [] },
   { name := "bladder", stype := "sphere", position := (0, 0.42, 0.08),
     size := (0.07, 0.08, 0.06), color := "#FFD700", system := "URINARY",
     subdivisions := 3, features := [] }]

/-- POLYGON_BUDGET (build_custom_anatomy.py, lines 38-52). -/
def POLYGON_BUDGET : List (String × Nat) :=
  [("brain", 5000), ("heart", 8000), ("lungs", 6000), ("liver", 6000),
   ("stomach", 3000), ("intestines", 8000), ("kidneys", 2000),
   ("bladder", 1000), ("spleen", 1500), ("pancreas", 2000),
   ("skeleton", 15000), ("vessels", 5000), ("nerves", 3000)]

/-- One entry of ANATOMY_MODELS (import_bodyparts3d.py, lines 30-65):
(fma_code, organ_name, system, color_hex, position). -/
structure AnatomyModel where
  fma_code : String
  organ_name : String
  system : String
  color : String
  position : Vec3
deriving DecidableEq

/-- ANATOMY_MODELS (import_bodyparts3d.py, lines 30-65), in source
order. -/
def ANATOMY_MODELS : List AnatomyModel :=
  [⟨"FMA50801", "brain", "NERVOUS", "#9B59B6", (0, 1.5, 0)⟩,
   ⟨"FMA7647", "spinal_cord", "NERVOUS", "#8E44AD", (0, 0.8, -0.05)⟩,
   ⟨"FMA7088", "heart", "CARDIOVASCULAR", "#E74C3C", (0.02, 1.0, 0.05)⟩,
   ⟨"FMA3986", "aorta", "CARDIOVASCULAR", "#C0392B", (0, 1.0, 0)⟩,
   ⟨"FMA4720", "superior_vena_cava", "CARDIOVASCULAR", "#8B0000", (0.05, 1.1, 0.05)⟩,
   ⟨"FMA7195", "lung_right", "RESPIRATORY", "#5DADE2", (0.08, 1.0, 0)⟩,
   ⟨"FMA7196", "lung_left", "RESPIRATORY", "#5DADE2", (-0.08, 1.0, 0)⟩,
   ⟨"FMA7394", "trachea", "RESPIRATORY", "#3498DB", (0, 1.2, 0.05)⟩,
   ⟨"FMA13322", "diaphragm", "RESPIRATORY", "#2E86C1", (0, 0.7, 0)⟩,
   ⟨"FMA7197", "liver", "DIGESTIVE", "#D68910", (0.1, 0.85, 0.05)⟩,
   ⟨"FMA7148", "stomach", "DIGESTIVE", "#E67E22", (-0.05, 0.8, 0.08)⟩,
   ⟨"FMA7199", "gallbladder", "DIGESTIVE", "#F39C12", (0.12, 0.82, 0.08)⟩,
   ⟨"FMA7203", "pancreas", "DIGESTIVE", "#CA6F1E", (0, 0.75, 0.05)⟩,
   ⟨"FMA7201", "spleen", "DIGESTIVE", "#7D3C98", (-0.12, 0.85, 0.05)⟩,
   ⟨"FMA7200", "small_intestine", "DIGESTIVE", "#F5B041", (0, 0.6, 0.08)⟩,
   ⟨"FMA14543", "large_intestine", "DIGESTIVE", "#DC7633", (0, 0.55, 0.1)⟩,
   ⟨"FMA7203", "kidney_right", "URINARY", "#F4D03F", (0.08, 0.7, -0.05)⟩,
   ⟨"FMA7204", "kidney_left", "URINARY", "#F4D03F", (-0.08, 0.7, -0.05)⟩,
   ⟨"FMA15900", "bladder", "URINARY", "#F7DC6F", (0, 0.45, 0.08)⟩,
   ⟨"FMA46565", "skull", "SKELETAL", "#E8E8E8", (0, 1.5, 0)⟩,
   ⟨"FMA7647", "spine", "SKELETAL", "#D5D8DC", (0, 0.8, -0.05)⟩,
   ⟨"FMA9468", "ribs", "SKELETAL", "#BDC3C7", (0, 1.0, 0)⟩,
   ⟨"FMA16585", "pelvis", "SKELETAL", "#AAB7B8", (0, 0.5, 0)⟩]

/-- One create_organ call of generate_anatomy_procedural.py: name,
geometry tag, size components (a scalar for spheres, pairs for
cylinders/capsules, triples for ellipsoids), position, color, system. -/
structure OrganCall where
  name : String
  geometry : String
  size : List ℚ
  position : Vec3
  color : String
  system : String
deriving DecidableEq

/-- The create_organ calls made by generate_anatomy_procedural.py's main
(lines 114-339), in execution order: body outline, then brain, heart,
lungs, digestive, urinary, skeletal, vascular and nervous systems. -/
def GENERATE_ORGAN_CALLS : List OrganCall :=
  [⟨"head", "sphere", [0.12], (0, 1.5, 0), "#FFD7BE", "BODY"⟩,
   ⟨"neck", "cylinder", [0.04, 0.12], (0, 1.35, 0), "#FFD7BE", "BODY"⟩,
   ⟨"torso_upper", "ellipsoid", [0.18, 0.35, 0.12], (0, 1.0, 0), "#FFD7BE", "BODY"⟩,
   ⟨"torso_lower", "ellipsoid", [0.15, 0.25, 0.12], (0, 0.7, 0), "#FFD7BE", "BODY"⟩,
   ⟨"arm_upper_left", "cylinder", [0.03, 0.25], (-0.25, 0.95, 0), "#FFD7BE", "BODY"⟩,
   ⟨"arm_lower_left", "cylinder", [0.025, 0.22], (-0.25, 0.65, 0), "#FFD7BE", "BODY"⟩,
   ⟨"arm_upper_right", "cylinder", [0.03, 0.25], (0.25, 0.95, 0), "#FFD7BE", "BODY"⟩,
   ⟨"arm_lower_right", "cylinder", [0.025, 0.22], (0.25, 0.65, 0), "#FFD7BE", "BODY"⟩,
   ⟨"leg_upper_left", "cylinder", [0.06, 0.4], (-0.08, 0.25, 0), "#FFD7BE", "BODY"⟩,
   ⟨"leg_lower_left", "cylinder", [0.04, 0.4], (-0.08, -0.15, 0), "#FFD7BE", "BODY"⟩,
   ⟨"leg_upper_right", "cylinder", [0.06, 0.4], (0.08, 0.25, 0), "#FFD7BE", "BODY"⟩,
   ⟨"leg_lower_right", "cylinder", [0.04, 0.4], (0.08, -0.15, 0), "#FFD7BE", "BODY"⟩,
   ⟨"brain", "ellipsoid", [0.08, 0.10, 0.09], (0, 1.52, 0.02), "#E8B4D9", "NERVOUS"⟩,
   ⟨"heart", "ellipsoid", [0.08, 0.10, 0.07], (0.02, 0.98, 0.05), "#E74C3C", "CARDIOVASCULAR"⟩,
   ⟨"lung_right", "ellipsoid", [0.10, 0.20, 0.08], (0.10, 1.0, 0), "#FFB6C1", "RESPIRATORY"⟩,
   ⟨"lung_left", "ellipsoid", [0.08, 0.18, 0.07], (-0.10, 1.0, 0), "#FFB6C1", "RESPIRATORY"⟩,
   ⟨"liver", "ellipsoid", [0.14, 0.10, 0.18], (0.08, 0.85, 0.05), "#8B4513", "DIGESTIVE"⟩,
   ⟨"stomach", "ellipsoid", [0.08, 0.12, 0.08], (-0.05, 0.80, 0.08), "#FFDAB9", "DIGESTIVE"⟩,
   ⟨"intestines", "ellipsoid", [0.15, 0.15, 0.12], (0, 0.60, 0.08), "#FFE4B5", "DIGESTIVE"⟩,
   ⟨"pancreas", "cylinder", [0.02, 0.12], (0, 0.78, 0.02), "#DEB887", "DIGESTIVE"⟩,
   ⟨"spleen", "ellipsoid", [0.05, 0.08, 0.04], (-0.12, 0.85, 0.02), "#8B008B", "DIGESTIVE"⟩,
   ⟨"kidney_left", "ellipsoid", [0.05, 0.08, 0.04], (-0.08, 0.70, -0.05), "#8B0000", "URINARY"⟩,
   ⟨"kidney_right", "ellipsoid", [0.05, 0.08, 0.04], (0.08, 0.70, -0.05), "#8B0000", "URINARY"⟩,
   ⟨"bladder", "sphere", [0.06], (0, 0.45, 0.08), "#FFD700", "URINARY"⟩,
   ⟨"skull", "sphere", [0.13], (0, 1.5, 0), "#E8E8E8", "SKELETAL"⟩,
   ⟨"spine", "cylinder", [0.02, 0.8], (0, 0.8, -0.05), "#D3D3D3", "SKELETAL"⟩,
   ⟨"rib_0", "ellipsoid", [0.18, 0.01, 0.10], (0, 1.2, 0), "#D3D3D3", "SKELETAL"⟩,
   ⟨"rib_1", "ellipsoid", [0.18, 0.01, 0.10], (0, 1.12, 0), "#D3D3D3", "SKELETAL"⟩,
   ⟨"rib_2", "ellipsoid", [0.18, 0.01, 0.10], (0, 1.04, 0), "#D3D3D3", "SKELETAL"⟩,
   ⟨"rib_3", "ellipsoid", [0.18, 0.01, 0.10], (0, 0.96, 0), "#D3D3D3", "SKELETAL"⟩,
   ⟨"rib_4", "ellipsoid", [0.18, 0.01, 0.10], (0, 0.88, 0), "#D3D3D3", "SKELETAL"⟩,
   ⟨"rib_5", "ellipsoid", [0.18, 0.01, 0.10], (0, 0.80, 0), "#D3D3D3", "SKELETAL"⟩,
   ⟨"aorta", "cylinder", [0.015, 0.6], (0.02, 0.80, 0), "#C0392B", "CARDIOVASCULAR"⟩,
   ⟨"vena_cava_superior", "cylinder", [0.012, 0.15], (0.05, 1.15, 0.02), "#8B0000", "CARDIOVASCULAR"⟩,
   ⟨"spinal_cord", "cylinder", [0.01, 0.75], (0, 0.82, -0.05), "#9B59B6", "NERVOUS"⟩,
   ⟨"nerve_branch_left", "cylinder", [0.005, 0.3], (-0.08, 0.65, -0.05), "#8E44AD", "NERVOUS"⟩,
   ⟨"nerve_branch_right", "cylinder", [0.005, 0.3], (0.08, 0.65, -0.05), "#8E44AD", "NERVOUS"⟩]

/-- The organ table of add_organ_meshes (create_morph_targets.py, lines
256-265): (name, location, scale, color). -/
def MORPH_ORGANS : List (String × Vec3 × ℚ × String) :=
  [("heart", (0.05, 0.05, 0.7), 0.08, "#E74C3C"),
   ("liver_right_lobe", (0.15, 0.05, 0.5), 0.12, "#D68910"),
   ("stomach_body", (-0.05, 0.05, 0.55), 0.08, "#E67E22"),
   ("lung_right", (0.12, 0.02, 0.75), 0.10, "#3498DB"),
   ("lung_left", (-0.12, 0.02, 0.75), 0.10, "#3498DB"),
   ("kidney_right", (0.10, -0.05, 0.45), 0.05, "#16A085"),
   ("kidney_left", (-0.10, -0.05, 0.45), 0.05, "#16A085")]

/- ===================================================================
   Geometry-type dispatch (claim C5).
   =================================================================== -/

/-- The mesh-creation function selected by build_anatomy_model's dispatch
on spec['type'] (build_custom_anatomy.py, lines 411-425). -/
inductive MeshKind where
  | complexMesh
  | tubeMesh
  | beanMesh
  | domeMesh
  | coiledTubeMesh
deriving DecidableEq

/-- Dispatch of build_anatomy_model (build_custom_anatomy.py, lines
411-425): the trailing elif sends 'pouch', 'oval', 'elongated', 'sphere',
'curved_tube' and 'tube_frame' to create_complex_mesh; any other tag
leaves obj = None and the structure is skipped (modelled as `none`). -/
def build_mesh_dispatch (t : String) : Option MeshKind :=
  if t = "complex" then some .complexMesh
  else if t = "tube" then some .tubeMesh
  else if t = "bean" then some .beanMesh
  else if t = "dome" then some .domeMesh
  else if t = "coiled_tube" then some .coiledTubeMesh
  else if t ∈ ["pouch", "oval", "elongated", "sphere", "curved_tube", "tube_frame"] then
    some .complexMesh
  else none

/-- The primitive-creation operator selected by create_organ's dispatch on
geometry_type (generate_anatomy_procedural.py, lines 59-93); `none` for a
tag no branch handles (the script would then operate on a stale active
object). -/
inductive PrimitiveKind where
  | uvSphere
  | cylinder
deriving DecidableEq

/-- Dispatch of create_organ (generate_anatomy_procedural.py, lines 61-92). -/
def generate_organ_dispatch (t : String) : Option PrimitiveKind :=
  if t = "sphere" then some .uvSphere
  else if t = "ellipsoid" then some .uvSphere
  else if t = "cylinder" then some .cylinder
  else if t = "capsule" then some .uvSphere
  else none

/-- The geometry archetype tags named by the specification. -/
def spec_claimed_tags : List String :=
  ["sphere", "ellipsoid", "cylinder", "tube", "dome", "complex", "coiled"]

/-- C5 counterexample: the 'stomach' entry of ANATOMY_STRUCTURES carries
the tag 'pouch', which is not in the specification's archetype set
(sphere/ellipsoid/cylinder/tube/dome/complex/coiled), so the tags are not
drawn from that set. -/
theorem anatomy_tag_outside_claimed_set :
    (ANATOMY_STRUCTURES.filter (fun s => s.name == "stomach")).map
      (fun s => s.stype) = ["pouch"] ∧
    spec_claimed_tags.contains "pouch" = false := by
  constructor
  · rfl
  · rfl

/-- C5 amended: the tags of ANATOMY_STRUCTURES are drawn from the set
of complex, tube, curved_tube, dome, pouch, coiled_tube, tube_frame,
elongated, oval, bean and sphere (not from the specification's seven-tag
set), the create_organ calls of generate_anatomy_procedural.py use only
sphere, ellipsoid and cylinder, and both dispatches handle every tag
occurring in their table: no entry is silently skipped. -/
theorem anatomy_tags_and_dispatch_total :
    (ANATOMY_STRUCTURES.all fun s =>
      s.stype ∈ ["complex", "tube", "curved_tube", "dome", "pouch", "coiled_tube",
        "tube_frame", "elongated", "oval", "bean", "sphere"]) = true ∧
    (ANATOMY_STRUCTURES.all fun s => (build_mesh_dispatch s.stype).isSome) = true ∧
    (GENERATE_ORGAN_CALLS.all fun c =>
      c.geometry ∈ ["sphere", "ellipsoid", "cylinder"]) = true ∧
    (GENERATE_ORGAN_CALLS.all fun c =>
      (generate_organ_dispatch c.geometry).isSome) = true := by
  refine ⟨?_, ?_, ?_, ?_⟩ <;> decide

/- ===================================================================
   Custom per-object properties (claim C1).
   =================================================================== -/

/-- The value of a Blender custom object property as these scripts set
them. -/
inductive PropValue where
  | str (s : String)
  | bool (b : Bool)
deriving DecidableEq

/-- Custom properties tagged on each structure by build_anatomy_model
(build_custom_anatomy.py, lines 432-434). -/
def build_custom_props (s : AnatomyStructure) : List (String × PropValue) :=
  [("system", .str s.system), ("clickable", .bool true)]

/-- Custom properties tagged on each imported model by the
import_anatomy_models function (import_bodyparts3d.py, lines 234-237). -/
def import_props (m : AnatomyModel) : List (String × PropValue) :=
  [("system_code", .str m.system), ("fma_code", .str m.fma_code),
   ("clickable", .bool true)]

/-- Custom properties tagged on each organ by create_organ
(generate_anatomy_procedural.py, lines 101-103). -/
def generate_props (c : OrganCall) : List (String × PropValue) :=
  [("system", .str c.system), ("clickable", .bool true)]

/-- C1 counterexample: the 'brain' structure built by
build_custom_anatomy.py carries no 'fma_code' property, and the brain
model imported by import_bodyparts3d.py carries no 'system' property
(it is tagged 'system_code' instead), so not every created object carries
all three of 'system', 'clickable' and 'fma_code'. -/
theorem object_props_missing_keys :
    (ANATOMY_STRUCTURES.filter (fun s => s.name == "brain")).map
      (fun s => (build_custom_props s).lookup "fma_code") = [none] ∧
    (ANATOMY_MODELS.filter (fun m => m.organ_name == "brain")).map
      (fun m => (import_props m).lookup "system") = [none] := by
  constructor
  · rfl
  · rfl

/-- C1 amended: objects built by build_custom_anatomy.py and
generate_anatomy_procedural.py are tagged with 'system' (their
organ-system classification) and 'clickable' = True but with no
'fma_code'; objects imported by import_bodyparts3d.py are tagged with
'system_code' (their organ-system classification), 'fma_code' (their FMA
identifier) and 'clickable' = True but with no property named 'system'. -/
theorem object_props_per_script :
    (ANATOMY_STRUCTURES.all fun s =>
      (build_custom_props s).lookup "system" == some (.str s.system) &&
      (build_custom_props s).lookup "clickable" == some (.bool true) &&
      ((build_custom_props s).lookup "fma_code").isNone) = true ∧
    (GENERATE_ORGAN_CALLS.all fun c =>
      (generate_props c).lookup "system" == some (.str c.system) &&
      (generate_props c).lookup "clickable" == some (.bool true) &&
      ((generate_props c).lookup "fma_code").isNone) = true ∧
    (ANATOMY_MODELS.all fun m =>
      (import_props m).lookup "system_code" == some (.str m.system) &&
      (import_props m).lookup "fma_code" == some (.str m.fma_code) &&
      (import_props m).lookup "clickable" == some (.bool true) &&
      ((import_props m).lookup "system").isNone) = true := by
  refine ⟨?_, ?_, ?_⟩ <;> decide

/- ===================================================================
   Effect traces (claims C3 and C4).  Each script's main is embedded as
   the list of claim-relevant host-operator invocations it performs, in
   program order: scene clearing, reference/base import, OBJ import,
   primitive creation, modifier application (subdivision surface,
   decimate, bisect), material assignment, custom-property tagging,
   optimization passes, GLTF export, and printed messages.
   =================================================================== -/

/-- A claim-relevant host operation performed by a script. -/
inductive Event where
  | clearScene
  | loadReference
  | importObjFile (fma : String)
  | primitiveAdd (kind obj : String)
  | modifierApply (kind obj : String)
  | bisect (obj : String)
  | materialAssign (obj : String)
  | tagProps (obj : String)
  | createVertexGroups (obj : String)
  | duplicateObject (obj : String)
  | addShapeKeys (obj : String)
  | removeObject (obj : String)
  | optimize (detail : String)
  | exportGLTF (file : String)
  | printMsg (msg : String)
deriving DecidableEq

/-- How a script run ends: a sys.exit with a code, or normal completion. -/
inductive Outcome where
  | exited (code : Nat)
  | completed
deriving DecidableEq

/-- True exactly on export events. -/
def isExportEv : Event → Bool
  | .exportGLTF _ => true
  | _ => false

/-- True when a trace begins with a primitive-creation operator. -/
def startsWithPrimitive (l : List Event) : Bool :=
  match l.head? with
  | some (.primitiveAdd _ _) => true
  | _ => false

/- import_bodyparts3d.py: import_obj_model (lines 125-143) prints a
warning and returns None when the OBJ file is absent; otherwise the
object is imported, scaled, positioned, cleaned, given a material, moved
to its collection and tagged (lines 206-241).  `avail` is the list of FMA
codes whose OBJ file exists in the input directory. -/

/-- Events of one loop iteration of import_anatomy_models
(import_bodyparts3d.py, lines 206-241). -/
def import_obj_events (avail : List String) (m : AnatomyModel) : List Event :=
  if m.fma_code ∈ avail then
    [.importObjFile m.fma_code, .materialAssign m.organ_name, .tagProps m.organ_name]
  else
    [.printMsg ("WARNING: Model not found: " ++ m.fma_code)]

/-- Trace of import_anatomy_models (import_bodyparts3d.py, lines 185-244). -/
def import_anatomy_models_trace (avail : List String) : List Event :=
  .clearScene :: ANATOMY_MODELS.flatMap (import_obj_events avail)

/-- Return value of import_anatomy_models: the number of models whose OBJ
file was found and imported. -/
def imported_count (avail : List String) : Nat :=
  (ANATOMY_MODELS.filter (fun m => m.fma_code ∈ avail)).length

/-- main of import_bodyparts3d.py (lines 327-373): outcome and trace as a
function of whether the input directory exists and which OBJ files are
available. -/
def bp3d_main (dirExists : Bool) (avail : List String) : Outcome × List Event :=
  if !dirExists then
    (.exited 1, [.printMsg "ERROR: Input directory not found"])
  else
    let ev := import_anatomy_models_trace avail
    if imported_count avail = 0 then
      (.exited 1, ev ++ [.printMsg "ERROR: No models were imported!"])
    else
      (.completed,
        ev ++ [.optimize "high_detail", .exportGLTF "human_anatomy_high.glb",
               .optimize "low_detail", .exportGLTF "human_anatomy_low.glb"])

/-- C3: a missing input directory makes main print an error and exit with
status 1; zero imported models likewise, and in that case the trace
contains no optimization and no export event. -/
theorem bp3d_main_errors_exit (avail : List String) :
    ((bp3d_main false avail).1 = .exited 1 ∧
      Event.printMsg "ERROR: Input directory not found" ∈ (bp3d_main false avail).2) ∧
    (imported_count avail = 0 →
      (bp3d_main true avail).1 = .exited 1 ∧
      Event.printMsg "ERROR: No models were imported!" ∈ (bp3d_main true avail).2 ∧
      (∀ d, Event.optimize d ∉ (bp3d_main true avail).2) ∧
      (∀ f, Event.exportGLTF f ∉ (bp3d_main true avail).2)) := by
  constructor
  · exact ⟨rfl, by simp [bp3d_main]⟩
  · intro h
    have hall : ∀ m ∈ ANATOMY_MODELS, m.fma_code ∉ avail := by
      unfold imported_count at h
      rw [List.length_eq_zero, List.filter_eq_nil_iff] at h
      intro m hm
      have := h m hm
      simpa using this
    have hmain : bp3d_main true avail =
        (.exited 1, import_anatomy_models_trace avail ++
          [.printMsg "ERROR: No models were imported!"]) := by
      simp [bp3d_main, h]
    have htrace : ∀ e ∈ import_anatomy_models_trace avail,
        e = .clearScene ∨ ∃ msg, e = .printMsg msg := by
      intro e he
      simp only [import_anatomy_models_trace, List.mem_cons, List.mem_flatMap] at he
      rcases he with he | ⟨m, hm, hin⟩
      · exact .inl he
      · right
        unfold import_obj_events at hin
        rw [if_neg (hall m hm)] at hin
        simp only [List.mem_singleton] at hin
        exact ⟨_, hin⟩
    rw [hmain]
    refine ⟨rfl, by simp, ?_, ?_⟩
    · intro d hd
      rcases List.mem_append.mp hd with hd | hd
      · rcases htrace _ hd with hd | ⟨msg, hd⟩ <;> exact absurd hd (by simp)
      · exact absurd hd (by simp)
    · intro p hp
      rcases List.mem_append.mp hp with hp | hp
      · rcases htrace _ hp with hp | ⟨msg, hp⟩ <;> exact absurd hp (by simp)
      · exact absurd hp (by simp)

/-- Witness for C3: with no OBJ file available, zero models are imported
and main exits with status 1 before any optimization or export. -/
theorem bp3d_main_errors_exit_witness :
    imported_count [] = 0 ∧
    (bp3d_main true []).1 = .exited 1 ∧
    Event.printMsg "ERROR: No models were imported!" ∈ (bp3d_main true []).2 ∧
    Event.exportGLTF "human_anatomy_high.glb" ∉ (bp3d_main true []).2 ∧
    (bp3d_main false []).1 = .exited 1 :=
  ⟨by decide,
   ((bp3d_main_errors_exit []).2 (by decide)).1,
   ((bp3d_main_errors_exit []).2 (by decide)).2.1,
   ((bp3d_main_errors_exit []).2 (by decide)).2.2.2 "human_anatomy_high.glb",
   (bp3d_main_errors_exit []).1.1⟩

/- build_custom_anatomy.py traces.  The decimate step of optimize_mesh
depends on the runtime polygon count; `nd name` abstracts "the mesh named
`name` exceeded its polygon budget". -/

/-- Events of create_complex_mesh (build_custom_anatomy.py, lines
212-236): UV-sphere primitive, then a subdivision-surface modifier added
and applied. -/
def create_complex_mesh_ev (name : String) : List Event :=
  [.primitiveAdd "uv_sphere" name, .modifierApply "SUBSURF" name]

/-- Events of create_tube_mesh (build_custom_anatomy.py, lines 238-253). -/
def create_tube_mesh_ev (name : String) : List Event :=
  [.primitiveAdd "cylinder" name]

/-- Events of create_bean_mesh (build_custom_anatomy.py, lines 255-264):
a complex mesh, then an asymmetric rescale (not tracked). -/
def create_bean_mesh_ev (name : String) : List Event :=
  create_complex_mesh_ev name

/-- Events of create_dome_mesh (build_custom_anatomy.py, lines 266-291):
UV-sphere primitive, then a bisect cutting away the bottom half. -/
def create_dome_mesh_ev (name : String) : List Event :=
  [.primitiveAdd "uv_sphere" name, .bisect name]

/-- Events of create_coiled_tube_mesh (build_custom_anatomy.py, lines
293-309): a bezier-curve primitive, bevelled and converted to a mesh. -/
def create_coiled_tube_mesh_ev (name : String) : List Event :=
  [.primitiveAdd "bezier_curve" name]

/-- Events of one iteration of build_anatomy_model's structure loop
(build_custom_anatomy.py, lines 408-440): dispatch-selected mesh
creation, then material assignment, custom-property tagging, and — when
the structure has a polygon budget and exceeds it — an applied decimate
modifier. -/
def build_structure_ev (nd : String → Bool) (s : AnatomyStructure) : List Event :=
  match build_mesh_dispatch s.stype with
  | none => []
  | some k =>
    (match k with
     | .complexMesh => create_complex_mesh_ev s.name
     | .tubeMesh => create_tube_mesh_ev s.name
     | .beanMesh => create_bean_mesh_ev s.name
     | .domeMesh => create_dome_mesh_ev s.name
     | .coiledTubeMesh => create_coiled_tube_mesh_ev s.name) ++
    [.materialAssign s.name, .tagProps s.name] ++
    (if (POLYGON_BUDGET.lookup s.name).isSome && nd s.name then
      [.modifierApply "DECIMATE" s.name]
    else [])

/-- Trace of build_custom_anatomy.py's main (lines 483-497): clear scene,
optionally load the Z-Anatomy reference, build every table structure,
export last. -/
def build_custom_main_ev (ref : Bool) (nd : String → Bool) : List Event :=
  ([Event.clearScene] ++ (if ref then [Event.loadReference] else []) ++
    ANATOMY_STRUCTURES.flatMap (build_structure_ev nd)) ++
  [Event.exportGLTF "human_anatomy_custom.glb"]

/-- Events of one create_organ call (generate_anatomy_procedural.py,
lines 59-108): dispatch-selected primitive, then material assignment and
custom-property tagging. -/
def create_organ_ev (c : OrganCall) : List Event :=
  (match generate_organ_dispatch c.geometry with
   | some .uvSphere => [Event.primitiveAdd "uv_sphere" c.name]
   | some .cylinder => [Event.primitiveAdd "cylinder" c.name]
   | none => []) ++
  [Event.materialAssign c.name, Event.tagProps c.name]

/-- Trace of generate_anatomy_procedural.py's main (lines 345-395). -/
def generate_main_ev : List Event :=
  ([Event.clearScene] ++ GENERATE_ORGAN_CALLS.flatMap create_organ_ev) ++
  [Event.exportGLTF "human_anatomy.glb"]

/-- The BMI presets for which a variant object is built: main skips
'Normal' (create_morph_targets.py, lines 352-356). -/
def MORPH_VARIANT_NAMES : List String :=
  (BMI_PRESETS.filter (fun p => !(p.1 == "Normal"))).map (fun p => p.1)

/-- Trace of create_morph_targets.py's main (lines 332-370): clear the
scene, bring in the base model (a cube primitive), create vertex groups, duplicate
the base once per non-Normal preset, convert variants to shape keys,
remove the variants, add the organ meshes, export last. -/
def morph_main_ev : List Event :=
  ([Event.clearScene,
    Event.primitiveAdd "cube" "BodyReference_BMI22",
    Event.createVertexGroups "BodyReference_BMI22"] ++
   MORPH_VARIANT_NAMES.flatMap (fun n => [Event.duplicateObject ("Body_" ++ n)]) ++
   [Event.addShapeKeys "BodyReference_BMI22"] ++
   MORPH_VARIANT_NAMES.map (fun n => Event.removeObject ("Body_" ++ n)) ++
   MORPH_ORGANS.flatMap (fun o =>
     [Event.primitiveAdd "uv_sphere" o.1, Event.tagProps o.1,
      Event.materialAssign o.1])) ++
  [Event.exportGLTF "human_body_morphable.glb"]

/-- C4 counterexample: in build_custom_anatomy.py the pipeline phases are
interleaved per structure, not sequential — the subdivision modifier of
'brain' (trace position 2) is applied before the primitive-creation
operator of 'spinal_cord' (trace position 5), so "iterate the table
invoking primitive-creation operators, then apply modifiers" is false as
a global phase order. -/
theorem pipeline_phase_order_counterexample :
    (build_custom_main_ev false (fun _ => false))[2]? =
      some (Event.modifierApply "SUBSURF" "brain") ∧
    (build_custom_main_ev false (fun _ => false))[5]? =
      some (Event.primitiveAdd "cylinder" "spinal_cord") ∧
    2 < 5 := by
  refine ⟨by decide, by decide, by decide⟩

theorem countP_flatMap_zero {α : Type} (p : Event → Bool) (f : α → List Event)
    (l : List α) (h : ∀ a ∈ l, (f a).countP p = 0) :
    (l.flatMap f).countP p = 0 := by
  induction l with
  | nil => simp
  | cons a t ih =>
      simp only [List.flatMap_cons, List.countP_append]
      rw [h a (by simp), ih (fun b hb => h b (by simp [hb]))]

theorem build_structure_ev_no_export (nd : String → Bool) (s : AnatomyStructure) :
    (build_structure_ev nd s).countP isExportEv = 0 := by
  unfold build_structure_ev
  rcases h : build_mesh_dispatch s.stype with _ | k
  · rfl
  · cases k <;>
      simp only [create_complex_mesh_ev, create_tube_mesh_ev, create_bean_mesh_ev,
        create_dome_mesh_ev, create_coiled_tube_mesh_ev, List.countP_append] <;>
      split_ifs <;> rfl

theorem build_structure_ev_starts_with_primitive (nd : String → Bool)
    (s : AnatomyStructure) (k : MeshKind)
    (h : build_mesh_dispatch s.stype = some k) :
    startsWithPrimitive (build_structure_ev nd s) = true := by
  cases k <;>
    simp [build_structure_ev, h, create_complex_mesh_ev, create_tube_mesh_ev,
      create_bean_mesh_ev, create_dome_mesh_ev, create_coiled_tube_mesh_ev,
      startsWithPrimitive]

/-- C4 amended: each script's main clears the scene first and invokes the
exporter last (exactly one export event, at the final trace position);
within the structure iteration the phases are per structure — every
structure's block begins with its primitive-creation operator, followed
by its modifier applications, material assignment and property tagging —
rather than forming global phases. -/
theorem pipeline_order_amended (ref : Bool) (nd : String → Bool) :
    (build_custom_main_ev ref nd).head? = some Event.clearScene ∧
    (build_custom_main_ev ref nd).getLast? =
      some (Event.exportGLTF "human_anatomy_custom.glb") ∧
    (build_custom_main_ev ref nd).countP isExportEv = 1 ∧
    (ANATOMY_STRUCTURES.all fun s =>
      startsWithPrimitive (build_structure_ev nd s)) = true ∧
    generate_main_ev.head? = some Event.clearScene ∧
    generate_main_ev.getLast? = some (Event.exportGLTF "human_anatomy.glb") ∧
    generate_main_ev.countP isExportEv = 1 ∧
    (GENERATE_ORGAN_CALLS.all fun c => startsWithPrimitive (create_organ_ev c)) = true ∧
    morph_main_ev.head? = some Event.clearScene ∧
    morph_main_ev.getLast? = some (Event.exportGLTF "human_body_morphable.glb") ∧
    morph_main_ev.countP isExportEv = 1 := by
  refine ⟨?_, ?_, ?_, ?_, by decide, by decide, by decide, by decide,
    by decide, by decide, by decide⟩
  · cases ref <;> rfl
  · exact List.getLast?_concat _
  · unfold build_custom_main_ev
    rw [List.countP_append, List.countP_append, List.countP_append,
      countP_flatMap_zero isExportEv (build_structure_ev nd) ANATOMY_STRUCTURES
        (fun s _ => build_structure_ev_no_export nd s)]
    cases ref <;> rfl
  · rw [List.all_eq_true]
    intro s hs
    have htot : (ANATOMY_STRUCTURES.all fun t =>
        (build_mesh_dispatch t.stype).isSome) = true := by decide
    obtain ⟨k, hk⟩ :=
      Option.isSome_iff_exists.mp (List.all_eq_true.mp htot s hs)
    exact build_structure_ev_starts_with_primitive nd s k hk

/- ===================================================================
   GLTF export invocations (claim C7).  Each bpy.ops.export_scene.gltf
   call is embedded as a record of the claim-relevant keyword arguments:
   the target directory (the script's module-level output-directory
   constant, relative to the project root), filename, export_format, and
   the Draco options; `none` means the argument was not passed.
   =================================================================== -/

/-- One exporter invocation with its claim-relevant arguments. -/
structure GltfExportCall where
  script : String
  output_dir : String
  filename : String
  export_format : String
  draco_enable : Bool
  draco_level : Option Nat
  draco_position_q : Option Nat
  draco_normal_q : Option Nat
  draco_texcoord_q : Option Nat
deriving DecidableEq

/-- MODELS_OUTPUT_DIR of import_bodyparts3d.py (line 26), OUTPUT_DIR of
build_custom_anatomy.py (line 34) and of generate_anatomy_procedural.py
(line 16), relative to the project root. -/
def MODELS_OUTPUT_DIR : String := "cli/packages/apps/client-app/public/models"

/-- OUTPUT_DIR of create_morph_targets.py (line 26). -/
def MORPH_OUTPUT_DIR : String := "cli/packages/apps/client-app/public/models/anatomy"

/-- export_gltf (import_bodyparts3d.py, lines 285-321) as a function of
its output_filename parameter: GLB format with Draco compression level 6
and quantization 14/10/12 for positions/normals/texture coordinates. -/
def export_gltf_import_call (output_filename : String) : GltfExportCall :=
  { script := "import_bodyparts3d.py",
    output_dir := MODELS_OUTPUT_DIR,
    filename := output_filename,
    export_format := "GLB",
    draco_enable := true,
    draco_level := some 6,
    draco_position_q := some 14,
    draco_normal_q := some 10,
    draco_texcoord_q := some 12 }

/-- export_gltf (create_morph_targets.py, lines 294-326): GLB with Draco
level 6, quantization arguments left at host defaults. -/
def export_gltf_morph_call : GltfExportCall :=
  { script := "create_morph_targets.py",
    output_dir := MORPH_OUTPUT_DIR,
    filename := "human_body_morphable.glb",
    export_format := "GLB",
    draco_enable := true,
    draco_level := some 6,
    draco_position_q := none,
    draco_normal_q := none,
    draco_texcoord_q := none }

/-- export_model (build_custom_anatomy.py, lines 458-477): GLB, no Draco
arguments passed (the exporter's Draco default is off). -/
def export_model_build_call : GltfExportCall :=
  { script := "build_custom_anatomy.py",
    output_dir := MODELS_OUTPUT_DIR,
    filename := "human_anatomy_custom.glb",
    export_format := "GLB",
    draco_enable := false,
    draco_level := none,
    draco_position_q := none,
    draco_normal_q := none,
    draco_texcoord_q := none }

/-- The export call in generate_anatomy_procedural.py's main (lines
376-381): GLB, no Draco arguments passed. -/
def export_generate_call : GltfExportCall :=
  { script := "generate_anatomy_procedural.py",
    output_dir := MODELS_OUTPUT_DIR,
    filename := "human_anatomy.glb",
    export_format := "GLB",
    draco_enable := false,
    draco_level := none,
    draco_position_q := none,
    draco_normal_q := none,
    draco_texcoord_q := none }

/-- Every exporter invocation made across the pipeline, in script order;
the main of import_bodyparts3d.py exports twice (high and low detail). -/
def pipeline_exports : List GltfExportCall :=
  [export_gltf_import_call "human_anatomy_high.glb",
   export_gltf_import_call "human_anatomy_low.glb",
   export_model_build_call,
   export_generate_call,
   export_gltf_morph_call]

/-- C7: every export in the pipeline writes binary GLB into its script's
fixed output directory, and import_bodyparts3d.py's export_gltf always
enables Draco compression at level 6 with quantization bit-depths 14
(positions), 10 (normals) and 12 (texture coordinates), independent of
the filename argument. -/
theorem exports_are_glb_with_draco_settings :
    (pipeline_exports.all fun c => c.export_format == "GLB") = true ∧
    (pipeline_exports.all fun c =>
      c.output_dir == MODELS_OUTPUT_DIR || c.output_dir == MORPH_OUTPUT_DIR) = true ∧
    ∀ name : String,
      (export_gltf_import_call name).output_dir = MODELS_OUTPUT_DIR ∧
      (export_gltf_import_call name).export_format = "GLB" ∧
      (export_gltf_import_call name).draco_enable = true ∧
      (export_gltf_import_call name).draco_level = some 6 ∧
      (export_gltf_import_call name).draco_position_q = some 14 ∧
      (export_gltf_import_call name).draco_normal_q = some 10 ∧
      (export_gltf_import_call name).draco_texcoord_q = some 12 := by
  exact ⟨by decide, by decide,
    fun _ => ⟨rfl, rfl, rfl, rfl, rfl, rfl, rfl⟩⟩
